import Mathlib

/-!
Shallow embedding of the core logic of the city-crave food-ordering app:
the cart model (`addToCart`, `updateQuantity`, `cartTotal`, `cartCount`
from the Menu page), the pricing calculator and order submission
(`Checkout.tsx`), the staff status-update affordance (Staff page), and the
row-level-security policies on the `orders` table (SQL migrations).
Monetary values are modelled as exact rationals; JS strings as Lean
strings; the database as explicit record lists.
-/

namespace CityCrave

/-- `menu` table row as used by the Menu page (`MenuItem` interface). -/
structure MenuItem where
  id : String
  name : String
  price : ℚ
  deriving Repr, DecidableEq

/-- `CartItem extends MenuItem` with a quantity.  The quantity is a JS
number that `updateQuantity` can drive below zero mid-computation, so it
is modelled as an integer. -/
structure CartItem where
  id : String
  name : String
  price : ℚ
  quantity : ℤ
  deriving Repr, DecidableEq

/-- `addToCart` from the Menu page: if a line with the item's id exists,
bump every matching line's quantity by 1 (`prev.map`), otherwise append a
new line with quantity 1. -/
def addToCart (item : MenuItem) (prev : List CartItem) : List CartItem :=
  if prev.any (fun i => i.id = item.id) then
    prev.map (fun i => if i.id = item.id then { i with quantity := i.quantity + 1 } else i)
  else
    prev ++ [{ id := item.id, name := item.name, price := item.price, quantity := 1 }]

/-- `updateQuantity` from the Menu page: add `delta` to every line whose
id matches, then drop every line whose quantity is not positive. -/
def updateQuantity (itemId : String) (delta : ℤ) (prev : List CartItem) : List CartItem :=
  (prev.map (fun i => if i.id = itemId then { i with quantity := i.quantity + delta } else i)).filter
    (fun i => 0 < i.quantity)

/-- `cartTotal`: `cart.reduce((sum, item) => sum + item.price * item.quantity, 0)`. -/
def cartTotal (cart : List CartItem) : ℚ :=
  cart.foldl (fun sum item => sum + item.price * (item.quantity : ℚ)) 0

/-- `cartCount`: `cart.reduce((sum, item) => sum + item.quantity, 0)`. -/
def cartCount (cart : List CartItem) : ℤ :=
  cart.foldl (fun sum item => sum + item.quantity) 0

/-- The two cart-mutating operations available to the customer UI. -/
inductive CartOp where
  | add (item : MenuItem)
  | change (itemId : String) (delta : ℤ)
  deriving Repr

/-- Apply one cart operation. -/
def applyOp (cart : List CartItem) : CartOp → List CartItem
  | .add item => addToCart item cart
  | .change itemId delta => updateQuantity itemId delta cart

/-- Apply a sequence of cart operations to the initially empty cart. -/
def applyOps (ops : List CartOp) : List CartItem :=
  ops.foldl applyOp []

/-- `order_type` enum from the first migration. -/
inductive OrderType where
  | dine_in
  | takeaway
  | delivery
  deriving Repr, DecidableEq

/-- `order_status` enum from the first migration. -/
inductive OrderStatus where
  | pending
  | preparing
  | ready
  | in_delivery
  | delivered
  | cancelled
  deriving Repr, DecidableEq

/-- Pricing from `Checkout.tsx` line 24: the subtotal reduce. -/
def subtotal (cart : List CartItem) : ℚ :=
  cart.foldl (fun sum item => sum + item.price * (item.quantity : ℚ)) 0

/-- `tax = subtotal * 0.1` (`Checkout.tsx` line 25). -/
def tax (cart : List CartItem) : ℚ :=
  subtotal cart * (1 / 10)

/-- `deliveryFee = orderType === "delivery" ? 5.99 : 0` (line 26). -/
def deliveryFee (orderType : OrderType) : ℚ :=
  if orderType = OrderType.delivery then 599 / 100 else 0

/-- `total = subtotal + tax + deliveryFee` (line 27). -/
def total (cart : List CartItem) (orderType : OrderType) : ℚ :=
  subtotal cart + tax cart + deliveryFee orderType

/-- `x.toFixed(2)` display rounding, as the integer number of cents shown:
round to nearest hundredth. -/
def displayCents (x : ℚ) : ℤ :=
  ⌊x * 100 + 1 / 2⌋

/-- JS `String.prototype.trim`, modelled on the character list: drop
leading and trailing whitespace. -/
def jsTrim (s : String) : String :=
  String.mk ((s.data.dropWhile Char.isWhitespace).reverse.dropWhile Char.isWhitespace).reverse

/-- `orders` table row, with the columns the checkout insert populates
(`Checkout.tsx` lines 44-58).  Row ids are modelled as naturals. -/
structure OrderRow where
  id : ℕ
  user_id : String
  branch_id : String
  order_type : OrderType
  status : OrderStatus
  tax : ℚ
  delivery_fee : ℚ
  total : ℚ
  delivery_address : Option String
  notes : Option String
  deriving Repr, DecidableEq

/-- `ordered_items` table row as populated by checkout (lines 62-67). -/
structure OrderedItemRow where
  order_id : ℕ
  menu_id : String
  quantity : ℤ
  price_each : ℚ
  deriving Repr, DecidableEq

/-- The relevant slice of the data store. -/
structure DB where
  menu : List MenuItem
  orders : List OrderRow
  ordered_items : List OrderedItemRow
  deriving Repr, DecidableEq

/-- The order row the checkout insert builds (`Checkout.tsx` lines 46-56):
status `pending`, computed tax/fee/total, address only for delivery,
empty notes stored as null. -/
def mkOrderRow (cart : List CartItem) (branchId userId : String) (orderType : OrderType)
    (deliveryAddress notes : String) (orderId : ℕ) : OrderRow :=
  { id := orderId
    user_id := userId
    branch_id := branchId
    order_type := orderType
    status := OrderStatus.pending
    tax := tax cart
    delivery_fee := deliveryFee orderType
    total := total cart orderType
    delivery_address := if orderType = OrderType.delivery then some deliveryAddress else none
    notes := if notes = "" then none else some notes }

/-- The `ordered_items` rows the checkout insert builds (lines 62-67):
one per cart line, capturing the line's quantity and price. -/
def mkOrderedItems (cart : List CartItem) (orderId : ℕ) : List OrderedItemRow :=
  cart.map (fun item =>
    { order_id := orderId, menu_id := item.id, quantity := item.quantity
      price_each := item.price })

/-- Outcome of `handlePlaceOrder`. -/
inductive PlaceOrderResult where
  | rejectedAddress
  | orderInsertError
  | itemsInsertError
  | success
  deriving Repr, DecidableEq

/-- `handlePlaceOrder` (`Checkout.tsx` lines 29-90).  The address guard
runs first; then the order row is inserted, then the item rows, as two
separate store calls.  `okOrder` and `okItems` model whether each insert
is accepted by the store; a failed second insert leaves the first one in
place (the catch block only notifies, it does not roll back). -/
def handlePlaceOrder (cart : List CartItem) (branchId userId : String)
    (orderType : OrderType) (deliveryAddress notes : String)
    (okOrder okItems : Bool) (orderId : ℕ) (db : DB) : DB × PlaceOrderResult :=
  if orderType = OrderType.delivery ∧ jsTrim deliveryAddress = "" then
    (db, PlaceOrderResult.rejectedAddress)
  else if okOrder = false then
    (db, PlaceOrderResult.orderInsertError)
  else
    let db1 : DB :=
      { db with orders := db.orders ++ [mkOrderRow cart branchId userId orderType deliveryAddress notes orderId] }
    if okItems = false then
      (db1, PlaceOrderResult.itemsInsertError)
    else
      ({ db1 with ordered_items := db1.ordered_items ++ mkOrderedItems cart orderId },
        PlaceOrderResult.success)

/-- Outcome of the full checkout flow, Menu guard included. -/
inductive CheckoutOutcome where
  | rejectedBranch
  | rejectedEmptyCart
  | rejectedAddress
  | orderInsertError
  | itemsInsertError
  | success
  deriving Repr, DecidableEq

/-- `handleCheckout` (Menu page, lines 123-133) followed by
`handlePlaceOrder`: a missing branch or an empty cart is rejected before
the checkout page is ever reached. -/
def checkoutFlow (selectedBranch : String) (cart : List CartItem) (userId : String)
    (orderType : OrderType) (deliveryAddress notes : String)
    (okOrder okItems : Bool) (orderId : ℕ) (db : DB) : DB × CheckoutOutcome :=
  if selectedBranch = "" then (db, CheckoutOutcome.rejectedBranch)
  else if cart.length = 0 then (db, CheckoutOutcome.rejectedEmptyCart)
  else
    match handlePlaceOrder cart selectedBranch userId orderType deliveryAddress notes
        okOrder okItems orderId db with
    | (db', PlaceOrderResult.rejectedAddress) => (db', CheckoutOutcome.rejectedAddress)
    | (db', PlaceOrderResult.orderInsertError) => (db', CheckoutOutcome.orderInsertError)
    | (db', PlaceOrderResult.itemsInsertError) => (db', CheckoutOutcome.itemsInsertError)
    | (db', PlaceOrderResult.success) => (db', CheckoutOutcome.success)

/-- Status choices the staff dashboard offers for an order (Staff page,
lines 280-290): `in_delivery` appears only when the order's type is
delivery. -/
def staffStatusOptions (o : OrderRow) : List OrderStatus :=
  [OrderStatus.pending, OrderStatus.preparing, OrderStatus.ready] ++
    (if o.order_type = OrderType.delivery then [OrderStatus.in_delivery] else []) ++
    [OrderStatus.delivered, OrderStatus.cancelled]

/-- `updateOrderStatus` (Staff page, lines 135-157): the store update
only changes the status column. -/
def setStatus (o : OrderRow) (s : OrderStatus) : OrderRow :=
  { o with status := s }

/-- USING expression of the RLS policy "Users can update their own
pending orders" (first migration, lines 160-162). -/
def customerUpdateUsing (row : OrderRow) (uid : String) : Bool :=
  decide (row.user_id = uid) && decide (row.status = OrderStatus.pending)

/-- Whether a customer-issued update of `old` to `new` is accepted by the
store: the policy has no WITH CHECK clause, so PostgreSQL applies the
USING expression to both the existing and the updated row. -/
def customerUpdateAllowed (old new : OrderRow) (uid : String) : Bool :=
  customerUpdateUsing old uid && customerUpdateUsing new uid

/-- Order rows reachable in the system: created through checkout (status
`pending`, address guard passed), updated by staff through the dashboard
(only statuses the dashboard offers), or updated by their owner subject
to the RLS policy. -/
inductive ReachableOrder : OrderRow → Prop where
  | created (cart : List CartItem) (branchId userId : String) (orderType : OrderType)
      (deliveryAddress notes : String) (orderId : ℕ)
      (hguard : ¬(orderType = OrderType.delivery ∧ jsTrim deliveryAddress = "")) :
      ReachableOrder (mkOrderRow cart branchId userId orderType deliveryAddress notes orderId)
  | staffUpdate (o : OrderRow) (s : OrderStatus) (ho : ReachableOrder o)
      (hs : s ∈ staffStatusOptions o) : ReachableOrder (setStatus o s)
  | customerUpdate (old new : OrderRow) (uid : String) (ho : ReachableOrder old)
      (hok : customerUpdateAllowed old new uid = true) : ReachableOrder new

/-- Catalog price change: `updateMenuPrice` rewrites the price of one
menu row and touches nothing else. -/
def updateMenuPrice (menuId : String) (newPrice : ℚ) (db : DB) : DB :=
  { db with menu := db.menu.map (fun m => if m.id = menuId then { m with price := newPrice } else m) }

/-- Retrieval of an order's items: the `ordered_items` rows whose
`order_id` matches. -/
def retrieveOrderedItems (db : DB) (orderId : ℕ) : List OrderedItemRow :=
  db.ordered_items.filter (fun r => r.order_id = orderId)

/-! ### Helper lemmas -/

lemma foldl_add_eq {α M : Type} [AddCommMonoid M] (f : α → M) :
    ∀ (l : List α) (init : M), l.foldl (fun s a => s + f a) init = init + (l.map f).sum := by
  intro l
  induction l with
  | nil => simp
  | cons a t ih =>
    intro init
    simp [List.foldl_cons, ih, add_assoc]

lemma subtotal_eq_sum (cart : List CartItem) :
    subtotal cart = (cart.map (fun i => i.price * (i.quantity : ℚ))).sum := by
  simpa using foldl_add_eq (fun i : CartItem => i.price * (i.quantity : ℚ)) cart 0

lemma cartCount_eq_sum (cart : List CartItem) :
    cartCount cart = (cart.map (fun i => i.quantity)).sum := by
  simpa using foldl_add_eq (fun i : CartItem => i.quantity) cart 0

/-- The worked example cart of the spec: item A at 8.99 with quantity 2,
item B at 12.99 with quantity 1. -/
def exampleCart : List CartItem :=
  [{ id := "a", name := "A", price := 899 / 100, quantity := 2 },
   { id := "b", name := "B", price := 1299 / 100, quantity := 1 }]

lemma addToCart_of_mem {cart : List CartItem} {item : MenuItem}
    (h : ∃ l ∈ cart, l.id = item.id) :
    addToCart item cart =
      cart.map (fun i => if i.id = item.id then { i with quantity := i.quantity + 1 } else i) := by
  unfold addToCart
  rw [if_pos]
  simpa using h

lemma addToCart_of_not_mem {cart : List CartItem} {item : MenuItem}
    (h : ∀ l ∈ cart, l.id ≠ item.id) :
    addToCart item cart =
      cart ++ [{ id := item.id, name := item.name, price := item.price, quantity := 1 }] := by
  unfold addToCart
  rw [if_neg]
  simpa using h

lemma filter_match_map_bump (cart : List CartItem) (x : String) :
    (cart.map (fun i => if i.id = x then { i with quantity := i.quantity + 1 } else i)).filter
        (fun l => l.id = x) =
      (cart.filter (fun l => l.id = x)).map (fun l => { l with quantity := l.quantity + 1 }) := by
  induction cart with
  | nil => rfl
  | cons a t ih =>
    by_cases ha : a.id = x
    · simp [List.filter_cons, List.map_cons, ha, ih]
    · simp [List.filter_cons, List.map_cons, ha, ih]

lemma filter_not_match_map_bump (cart : List CartItem) (x : String) :
    (cart.map (fun i => if i.id = x then { i with quantity := i.quantity + 1 } else i)).filter
        (fun l => ¬ l.id = x) =
      cart.filter (fun l => ¬ l.id = x) := by
  induction cart with
  | nil => rfl
  | cons a t ih =>
    by_cases ha : a.id = x
    · simp [List.filter_cons, ha, decide_not] at ih ⊢
      exact ih
    · simp [List.filter_cons, ha, decide_not] at ih ⊢
      exact ih

/-- Menu item A of the spec's worked example. -/
def itemA : MenuItem :=
  { id := "a", name := "A", price := 899 / 100 }

/-- A store with no rows. -/
def emptyDB : DB :=
  { menu := [], orders := [], ordered_items := [] }

/-! ### Claims -/

/-- C1: at checkout the subtotal is the sum over all cart lines of unit
price times quantity, tax is 10% of the subtotal, the delivery fee is
5.99 exactly for delivery orders, and the total is their sum; on the
example cart (8.99 at quantity 2 and 12.99 at quantity 1) this gives
subtotal 30.97, tax 3.097 displayed as 3.10, dine-in total 34.067
displayed as 34.07, and delivery total 40.057 displayed as 40.06. -/
theorem checkout_pricing_correct :
    (∀ cart, subtotal cart = (cart.map (fun i => i.price * (i.quantity : ℚ))).sum) ∧
    (∀ cart, tax cart = subtotal cart * (1 / 10)) ∧
    (∀ t, deliveryFee t = if t = OrderType.delivery then 599 / 100 else 0) ∧
    (∀ cart t, total cart t = subtotal cart + tax cart + deliveryFee t) ∧
    subtotal exampleCart = 3097 / 100 ∧
    tax exampleCart = 3097 / 1000 ∧
    displayCents (tax exampleCart) = 310 ∧
    total exampleCart OrderType.dine_in = 34067 / 1000 ∧
    displayCents (total exampleCart OrderType.dine_in) = 3407 ∧
    total exampleCart OrderType.delivery = total exampleCart OrderType.dine_in + 599 / 100 ∧
    displayCents (total exampleCart OrderType.delivery) = 4006 := by
  refine ⟨subtotal_eq_sum, fun _ => rfl, fun _ => rfl, fun _ _ => rfl, ?_, ?_, ?_, ?_, ?_, ?_, ?_⟩
  all_goals norm_num [displayCents, total, tax, subtotal, deliveryFee, exampleCart,
    show OrderType.dine_in ≠ OrderType.delivery from fun h => OrderType.noConfusion h]

/-- C2: adding an item whose id already has a cart line bumps that line's
quantity by 1 and appends nothing (the line count is unchanged and the
matching lines are exactly the old ones with quantity + 1); adding an
item with no existing line appends a single line with quantity 1; hence
adding the same item twice to a cart not containing it yields exactly one
line for it, with quantity 2. -/
theorem addToCart_consolidates (cart : List CartItem) (item : MenuItem) :
    ((∃ l ∈ cart, l.id = item.id) →
      (addToCart item cart).length = cart.length ∧
      (addToCart item cart).filter (fun l => l.id = item.id) =
        (cart.filter (fun l => l.id = item.id)).map
          (fun l => { l with quantity := l.quantity + 1 })) ∧
    ((∀ l ∈ cart, l.id ≠ item.id) →
      addToCart item cart =
        cart ++ [{ id := item.id, name := item.name, price := item.price, quantity := 1 }]) ∧
    ((∀ l ∈ cart, l.id ≠ item.id) →
      (addToCart item (addToCart item cart)).filter (fun l => l.id = item.id) =
        [{ id := item.id, name := item.name, price := item.price, quantity := 2 }]) := by
  refine ⟨fun h => ?_, fun h => addToCart_of_not_mem h, fun h => ?_⟩
  · rw [addToCart_of_mem h]
    exact ⟨by simp, filter_match_map_bump cart item.id⟩
  · rw [addToCart_of_not_mem h]
    have hmem : ∃ l ∈ cart ++
        [({ id := item.id, name := item.name, price := item.price, quantity := 1 } : CartItem)],
        l.id = item.id := by
      refine ⟨_, List.mem_append_right _ (List.mem_singleton_self _), rfl⟩
    rw [addToCart_of_mem hmem, filter_match_map_bump, List.filter_append]
    have hnil : cart.filter (fun l => l.id = item.id) = [] := by
      simp only [List.filter_eq_nil_iff, decide_eq_true_eq]
      exact h
    simp [hnil]

/-- Witness for C2 at a concrete input: the empty cart does not contain
item A, and adding item A twice yields the single line with quantity 2. -/
theorem addToCart_consolidates_witness :
    (addToCart itemA (addToCart itemA [])).filter (fun l => l.id = itemA.id) =
      [{ id := itemA.id, name := itemA.name, price := itemA.price, quantity := 2 }] :=
  (addToCart_consolidates [] itemA).2.2 (by simp)

lemma updateQuantity_all_pos (itemId : String) (delta : ℤ) (cart : List CartItem) :
    ∀ l ∈ updateQuantity itemId delta cart, 0 < l.quantity := by
  intro l hl
  unfold updateQuantity at hl
  rw [List.mem_filter] at hl
  simpa using hl.2

lemma addToCart_all_pos {cart : List CartItem} (item : MenuItem)
    (h : ∀ l ∈ cart, 0 < l.quantity) :
    ∀ l ∈ addToCart item cart, 0 < l.quantity := by
  intro l hl
  unfold addToCart at hl
  split at hl
  · rw [List.mem_map] at hl
    obtain ⟨i, hi, rfl⟩ := hl
    by_cases hid : i.id = item.id
    · rw [if_pos hid]
      have := h i hi
      show 0 < i.quantity + 1
      omega
    · simpa [hid] using h i hi
  · rw [List.mem_append] at hl
    rcases hl with hl | hl
    · exact h l hl
    · rw [List.mem_singleton] at hl
      subst hl
      exact Int.one_pos

lemma applyOp_all_pos {cart : List CartItem} (op : CartOp)
    (h : ∀ l ∈ cart, 0 < l.quantity) :
    ∀ l ∈ applyOp cart op, 0 < l.quantity := by
  cases op with
  | add item => exact addToCart_all_pos item h
  | change itemId delta => exact updateQuantity_all_pos itemId delta cart

lemma foldl_applyOp_all_pos (ops : List CartOp) :
    ∀ (cart : List CartItem), (∀ l ∈ cart, 0 < l.quantity) →
      ∀ l ∈ ops.foldl applyOp cart, 0 < l.quantity := by
  induction ops with
  | nil => intro cart h; simpa using h
  | cons op rest ih =>
    intro cart h
    exact ih (applyOp cart op) (applyOp_all_pos op h)

lemma applyOps_all_pos (ops : List CartOp) :
    ∀ l ∈ applyOps ops, 0 < l.quantity :=
  foldl_applyOp_all_pos ops [] (by simp)

/-- C3: in every cart reachable from the empty cart by `addToCart` and
`updateQuantity` calls, every line's quantity is strictly positive,
`cartCount` is the sum of all line quantities and is never negative; and
after any `updateQuantity` call no line with quantity 0 or below remains
in the cart. -/
theorem cart_invariants (ops : List CartOp) :
    (∀ l ∈ applyOps ops, 0 < l.quantity) ∧
    cartCount (applyOps ops) = ((applyOps ops).map (fun l => l.quantity)).sum ∧
    0 ≤ cartCount (applyOps ops) ∧
    ∀ (itemId : String) (delta : ℤ) (cart : List CartItem),
      ∀ l ∈ updateQuantity itemId delta cart, 0 < l.quantity := by
  refine ⟨applyOps_all_pos ops, cartCount_eq_sum _, ?_, updateQuantity_all_pos⟩
  rw [cartCount_eq_sum]
  apply List.sum_nonneg
  intro q hq
  rw [List.mem_map] at hq
  obtain ⟨l, hl, rfl⟩ := hq
  exact le_of_lt (applyOps_all_pos ops l hl)

/-- Witness for C3 at a concrete input: after adding item A and then
decrementing it below zero, the count is still non-negative, and the line
left after a plain add has positive quantity. -/
theorem cart_invariants_witness :
    0 ≤ cartCount (applyOps [CartOp.add itemA, CartOp.change "a" (-2)]) ∧
    0 < (CartItem.mk "a" "A" (899 / 100) 1).quantity :=
  ⟨(cart_invariants [CartOp.add itemA, CartOp.change "a" (-2)]).2.2.1,
   (cart_invariants [CartOp.add itemA]).1 _ (by simp [applyOps, applyOp, addToCart, itemA])⟩

lemma updateQuantity_filter_aux (x : String) (delta : ℤ) :
    ∀ (t : List CartItem), (∀ l ∈ t, 0 < l.quantity) →
      ((t.map (fun i => if i.id = x then { i with quantity := i.quantity + delta } else i)).filter
          (fun i => 0 < i.quantity)).filter (fun l => ¬ l.id = x) =
        t.filter (fun l => ¬ l.id = x) := by
  intro t
  induction t with
  | nil => intro _; rfl
  | cons a t ih =>
    intro h
    have ha := h a (List.mem_cons_self a t)
    have ht := fun l hl => h l (List.mem_cons_of_mem a hl)
    have ih' := ih ht
    by_cases hid : a.id = x
    · by_cases hq : 0 < a.quantity + delta
      · simp [List.filter_cons, hid, hq, ha, decide_not] at ih' ⊢
        exact ih'
      · simp [List.filter_cons, hid, hq, ha, decide_not] at ih' ⊢
        exact ih'
    · simp [List.filter_cons, hid, ha, decide_not] at ih' ⊢
      exact ih'

lemma updateQuantity_frame {cart : List CartItem} (itemId : String) (delta : ℤ)
    (h : ∀ l ∈ cart, 0 < l.quantity) :
    (updateQuantity itemId delta cart).filter (fun l => ¬ l.id = itemId) =
      cart.filter (fun l => ¬ l.id = itemId) :=
  updateQuantity_filter_aux itemId delta cart h

lemma addToCart_frame (cart : List CartItem) (item : MenuItem) :
    (addToCart item cart).filter (fun l => ¬ l.id = item.id) =
      cart.filter (fun l => ¬ l.id = item.id) := by
  by_cases h : ∃ l ∈ cart, l.id = item.id
  · rw [addToCart_of_mem h]
    exact filter_not_match_map_bump cart item.id
  · push_neg at h
    rw [addToCart_of_not_mem h, List.filter_append]
    simp

lemma updateQuantity_ids_subset (itemId : String) (delta : ℤ) (cart : List CartItem) :
    ∀ l ∈ updateQuantity itemId delta cart, l.id ∈ cart.map (fun i => i.id) := by
  intro l hl
  unfold updateQuantity at hl
  rw [List.mem_filter] at hl
  obtain ⟨hm, _⟩ := hl
  rw [List.mem_map] at hm
  obtain ⟨i, hi, heq⟩ := hm
  rw [← heq]
  have hsame :
      (if i.id = itemId then ({ i with quantity := i.quantity + delta } : CartItem) else i).id =
        i.id := by
    by_cases hid : i.id = itemId <;> simp [hid]
  rw [hsame]
  exact List.mem_map_of_mem _ hi

/-- C10: each cart operation touches only the line matching the given id:
the lines with a different id, in their relative order, are the same
before and after `addToCart` and (on carts whose quantities are positive,
as all reachable carts are) after `updateQuantity`; and `updateQuantity`
never introduces a line whose id was not already present. -/
theorem cart_ops_frame (cart : List CartItem) (item : MenuItem)
    (itemId : String) (delta : ℤ) :
    (addToCart item cart).filter (fun l => ¬ l.id = item.id) =
      cart.filter (fun l => ¬ l.id = item.id) ∧
    ((∀ l ∈ cart, 0 < l.quantity) →
      (updateQuantity itemId delta cart).filter (fun l => ¬ l.id = itemId) =
        cart.filter (fun l => ¬ l.id = itemId)) ∧
    (∀ l ∈ updateQuantity itemId delta cart, l.id ∈ cart.map (fun i => i.id)) :=
  ⟨addToCart_frame cart item, fun h => updateQuantity_frame itemId delta h,
    updateQuantity_ids_subset itemId delta cart⟩

/-- Witness for C10 at a concrete input: decrementing item a in the
example cart (whose quantities are positive) leaves the line for item b
untouched. -/
theorem cart_ops_frame_witness :
    (updateQuantity "a" (-1) exampleCart).filter (fun l => ¬ l.id = "a") =
      exampleCart.filter (fun l => ¬ l.id = "a") :=
  (cart_ops_frame exampleCart itemA "a" (-1)).2.1 (by
    intro l hl
    simp only [exampleCart, List.mem_cons, List.not_mem_nil, or_false] at hl
    rcases hl with rfl | rfl <;> norm_num)

lemma in_delivery_option_iff (o : OrderRow) :
    OrderStatus.in_delivery ∈ staffStatusOptions o ↔ o.order_type = OrderType.delivery := by
  cases h : o.order_type <;> simp [staffStatusOptions, h]

lemma customerUpdateAllowed_pending {old new : OrderRow} {uid : String}
    (hok : customerUpdateAllowed old new uid = true) :
    old.status = OrderStatus.pending ∧ new.status = OrderStatus.pending := by
  simp only [customerUpdateAllowed, customerUpdateUsing, Bool.and_eq_true,
    decide_eq_true_eq] at hok
  exact ⟨hok.1.2, hok.2.2⟩

/-- C4: the staff dashboard offers the `in_delivery` status exactly for
delivery orders, and in every reachable state no order of a different
type ever carries the status `in_delivery`. -/
theorem no_in_delivery_for_non_delivery :
    (∀ o : OrderRow, OrderStatus.in_delivery ∈ staffStatusOptions o ↔
        o.order_type = OrderType.delivery) ∧
    ∀ o : OrderRow, ReachableOrder o →
      o.status = OrderStatus.in_delivery → o.order_type = OrderType.delivery := by
  refine ⟨in_delivery_option_iff, ?_⟩
  intro o ho
  induction ho with
  | created cart branchId userId orderType deliveryAddress notes orderId hguard =>
    intro hst
    simp [mkOrderRow] at hst
  | staffUpdate o s ho hs ih =>
    intro hst
    have hs' : s = OrderStatus.in_delivery := hst
    subst hs'
    exact (in_delivery_option_iff o).1 hs
  | customerUpdate old new uid ho hok ih =>
    intro hst
    rw [(customerUpdateAllowed_pending hok).2] at hst
    exact absurd hst (by simp)

/-- A delivery order of the worked example, created through checkout and
then moved to `in_delivery` by staff. -/
def orderD : OrderRow :=
  setStatus (mkOrderRow exampleCart "b1" "u1" OrderType.delivery "12 Main St" "" 1)
    OrderStatus.in_delivery

/-- Witness for C4 at a concrete input: the in-delivery order above is
reachable, and the theorem concludes its type is delivery. -/
theorem no_in_delivery_for_non_delivery_witness :
    ReachableOrder orderD ∧ orderD.order_type = OrderType.delivery := by
  have hguard : ¬(OrderType.delivery = OrderType.delivery ∧ jsTrim "12 Main St" = "") := by
    simp [jsTrim]
  have hr : ReachableOrder orderD :=
    ReachableOrder.staffUpdate _ OrderStatus.in_delivery
      (ReachableOrder.created exampleCart "b1" "u1" OrderType.delivery "12 Main St" "" 1 hguard)
      (by simp [staffStatusOptions, mkOrderRow])
  exact ⟨hr, no_in_delivery_for_non_delivery.2 orderD hr rfl⟩

/-- C5: the row-level-security policy accepts a customer update of an
order only while the order's status is `pending`; any other status makes
the policy reject the update. -/
theorem customer_modification_requires_pending (old new : OrderRow) (uid : String) :
    old.status ≠ OrderStatus.pending → customerUpdateAllowed old new uid = false := by
  intro h
  simp [customerUpdateAllowed, customerUpdateUsing, h]

/-- A dine-in order moved to `preparing`. -/
def orderPreparing : OrderRow :=
  setStatus (mkOrderRow exampleCart "b1" "u1" OrderType.dine_in "" "" 2) OrderStatus.preparing

/-- Witness for C5 at a concrete input: the preparing order rejects a
customer update even by its own owner. -/
theorem customer_modification_requires_pending_witness :
    customerUpdateAllowed orderPreparing orderPreparing "u1" = false :=
  customer_modification_requires_pending orderPreparing orderPreparing "u1"
    (by simp [orderPreparing, setStatus])

/-- C6: with an empty cart the checkout flow stops at one of the Menu
guards, the store is left exactly as it was, and no order row is
created, whatever the order type. -/
theorem empty_cart_checkout_rejected (branch userId : String) (t : OrderType)
    (addr notes : String) (okO okI : Bool) (oid : ℕ) (db : DB) :
    (checkoutFlow branch [] userId t addr notes okO okI oid db).1 = db ∧
    ((checkoutFlow branch [] userId t addr notes okO okI oid db).2 =
        CheckoutOutcome.rejectedBranch ∨
      (checkoutFlow branch [] userId t addr notes okO okI oid db).2 =
        CheckoutOutcome.rejectedEmptyCart) := by
  by_cases hb : branch = ""
  · simp [checkoutFlow, hb]
  · simp [checkoutFlow, hb]

/-- C7: a delivery checkout whose address trims to the empty string is
rejected with the store untouched; and when an order row is created it
carries a non-empty delivery address exactly when its type is delivery
(null otherwise). -/
theorem delivery_address_checked (cart : List CartItem) (branchId userId : String)
    (t : OrderType) (addr notes : String) (okO okI : Bool) (oid : ℕ) (db : DB) :
    (t = OrderType.delivery → jsTrim addr = "" →
      handlePlaceOrder cart branchId userId t addr notes okO okI oid db =
        (db, PlaceOrderResult.rejectedAddress)) ∧
    (¬(t = OrderType.delivery ∧ jsTrim addr = "") →
      (handlePlaceOrder cart branchId userId t addr notes true okI oid db).1.orders =
        db.orders ++ [mkOrderRow cart branchId userId t addr notes oid] ∧
      (t = OrderType.delivery ↔
        ∃ a, (mkOrderRow cart branchId userId t addr notes oid).delivery_address = some a ∧
          a ≠ "")) := by
  constructor
  · intro h1 h2
    simp [handlePlaceOrder, h1, h2]
  · intro hg
    constructor
    · cases okI <;> simp [handlePlaceOrder, hg]
    · cases ht : t with
      | delivery =>
        refine ⟨fun _ => ⟨addr, by simp [mkOrderRow, ht], fun ha => ?_⟩, fun _ => rfl⟩
        exact hg ⟨ht, by simp [ha, jsTrim]⟩
      | dine_in => simp [mkOrderRow, ht]
      | takeaway => simp [mkOrderRow, ht]

/-- Witness for C7 at concrete inputs: a delivery order with a blank
address is rejected, and one with a real address stores that address. -/
theorem delivery_address_checked_witness :
    handlePlaceOrder exampleCart "b1" "u1" OrderType.delivery " " "" true true 1 emptyDB =
      (emptyDB, PlaceOrderResult.rejectedAddress) ∧
    ((handlePlaceOrder exampleCart "b1" "u1" OrderType.delivery "12 Main St" "" true true 1
          emptyDB).1.orders =
        emptyDB.orders ++ [mkOrderRow exampleCart "b1" "u1" OrderType.delivery "12 Main St" "" 1] ∧
      (OrderType.delivery = OrderType.delivery ↔
        ∃ a, (mkOrderRow exampleCart "b1" "u1" OrderType.delivery "12 Main St" ""
            1).delivery_address = some a ∧ a ≠ "")) :=
  ⟨(delivery_address_checked exampleCart "b1" "u1" OrderType.delivery " " "" true true 1
      emptyDB).1 rfl (by simp [jsTrim]),
   (delivery_address_checked exampleCart "b1" "u1" OrderType.delivery "12 Main St" "" true true 1
      emptyDB).2 (by simp [jsTrim])⟩

/-- C8 as claimed: every submission either stores the order row together
with all its item rows or stores nothing. -/
def AtomicSubmission : Prop :=
  ∀ (cart : List CartItem) (branchId userId : String) (t : OrderType)
    (addr notes : String) (okO okI : Bool) (oid : ℕ) (db : DB),
    ((handlePlaceOrder cart branchId userId t addr notes okO okI oid db).1.orders = db.orders ∧
      (handlePlaceOrder cart branchId userId t addr notes okO okI oid db).1.ordered_items =
        db.ordered_items) ∨
    ((handlePlaceOrder cart branchId userId t addr notes okO okI oid db).1.orders =
        db.orders ++ [mkOrderRow cart branchId userId t addr notes oid] ∧
      (handlePlaceOrder cart branchId userId t addr notes okO okI oid db).1.ordered_items =
        db.ordered_items ++ mkOrderedItems cart oid)

/-- Counterexample to C8: when the order insert succeeds and the item
insert fails, the order row stays stored with no item rows, so the
submission is not atomic. -/
theorem order_submission_not_atomic : ¬ AtomicSubmission := by
  intro h
  rcases h exampleCart "b1" "u1" OrderType.dine_in "" "" true false 1 emptyDB with
    ⟨h1, _⟩ | ⟨_, h2⟩
  · simp [handlePlaceOrder, emptyDB] at h1
  · simp [handlePlaceOrder, emptyDB, mkOrderedItems, exampleCart] at h2

/-- C8 amended: the two inserts are sequential with no rollback — if the
order insert fails nothing is stored, if both succeed the order and all
its items are stored, and if only the item insert fails the order row
remains stored with no item rows. -/
theorem order_submission_amended (cart : List CartItem) (branchId userId : String)
    (t : OrderType) (addr notes : String) (okI : Bool) (oid : ℕ) (db : DB) :
    (handlePlaceOrder cart branchId userId t addr notes false okI oid db).1 = db ∧
    (¬(t = OrderType.delivery ∧ jsTrim addr = "") →
      (handlePlaceOrder cart branchId userId t addr notes true true oid db).1.orders =
          db.orders ++ [mkOrderRow cart branchId userId t addr notes oid] ∧
        (handlePlaceOrder cart branchId userId t addr notes true true oid db).1.ordered_items =
          db.ordered_items ++ mkOrderedItems cart oid) ∧
    (¬(t = OrderType.delivery ∧ jsTrim addr = "") →
      (handlePlaceOrder cart branchId userId t addr notes true false oid db).1.orders =
          db.orders ++ [mkOrderRow cart branchId userId t addr notes oid] ∧
        (handlePlaceOrder cart branchId userId t addr notes true false oid db).1.ordered_items =
          db.ordered_items) := by
  refine ⟨?_, fun hg => by simp [handlePlaceOrder, hg], fun hg => by simp [handlePlaceOrder, hg]⟩
  by_cases hg : t = OrderType.delivery ∧ jsTrim addr = ""
  · simp [handlePlaceOrder, hg]
  · simp [handlePlaceOrder, hg]

/-- Witness for C8's amended statement at a concrete input: a dine-in
submission whose item insert fails keeps the order row and stores no item
rows. -/
theorem order_submission_amended_witness :
    (handlePlaceOrder exampleCart "b1" "u1" OrderType.dine_in "" "" true false 1 emptyDB).1.orders =
        emptyDB.orders ++ [mkOrderRow exampleCart "b1" "u1" OrderType.dine_in "" "" 1] ∧
    (handlePlaceOrder exampleCart "b1" "u1" OrderType.dine_in "" "" true false 1
        emptyDB).1.ordered_items = emptyDB.ordered_items :=
  (order_submission_amended exampleCart "b1" "u1" OrderType.dine_in "" "" false 1 emptyDB).2.2
    (by simp)

/-- C9: a successful submission of an N-line cart is retrievable as
exactly N item rows, one per cart line, carrying the line's quantity and
the price captured at submission time, and a later catalog price change
leaves those stored rows untouched. -/
theorem order_roundtrip_price_capture (cart : List CartItem) (branchId userId : String)
    (t : OrderType) (addr notes : String) (oid : ℕ) (db : DB)
    (menuId : String) (newPrice : ℚ)
    (hguard : ¬(t = OrderType.delivery ∧ jsTrim addr = ""))
    (hfresh : ∀ r ∈ db.ordered_items, r.order_id ≠ oid) :
    retrieveOrderedItems (handlePlaceOrder cart branchId userId t addr notes true true oid db).1
        oid =
      cart.map (fun i =>
        { order_id := oid, menu_id := i.id, quantity := i.quantity, price_each := i.price }) ∧
    (retrieveOrderedItems (handlePlaceOrder cart branchId userId t addr notes true true oid db).1
        oid).length = cart.length ∧
    retrieveOrderedItems
        (updateMenuPrice menuId newPrice
          (handlePlaceOrder cart branchId userId t addr notes true true oid db).1) oid =
      retrieveOrderedItems (handlePlaceOrder cart branchId userId t addr notes true true oid db).1
        oid := by
  have hdb : (handlePlaceOrder cart branchId userId t addr notes true true oid db).1.ordered_items =
      db.ordered_items ++ mkOrderedItems cart oid := by
    simp [handlePlaceOrder, hguard]
  have hret : retrieveOrderedItems
      (handlePlaceOrder cart branchId userId t addr notes true true oid db).1 oid =
      mkOrderedItems cart oid := by
    unfold retrieveOrderedItems
    rw [hdb, List.filter_append]
    have hnil : db.ordered_items.filter (fun r => r.order_id = oid) = [] := by
      simp only [List.filter_eq_nil_iff, decide_eq_true_eq]
      exact hfresh
    have hall : (mkOrderedItems cart oid).filter (fun r => r.order_id = oid) =
        mkOrderedItems cart oid := by
      rw [List.filter_eq_self]
      intro r hr
      simp only [mkOrderedItems, List.mem_map] at hr
      obtain ⟨i, _, rfl⟩ := hr
      simp
    rw [hnil, hall, List.nil_append]
  refine ⟨hret, ?_, rfl⟩
  rw [hret]
  simp [mkOrderedItems]

/-- Witness for C9 at a concrete input: the example cart submitted
dine-in against the empty store round-trips to its two item rows, and a
later price change of item a does not alter them. -/
theorem order_roundtrip_price_capture_witness :
    retrieveOrderedItems
        (handlePlaceOrder exampleCart "b1" "u1" OrderType.dine_in "" "" true true 1 emptyDB).1 1 =
      exampleCart.map (fun i =>
        { order_id := 1, menu_id := i.id, quantity := i.quantity, price_each := i.price }) ∧
    retrieveOrderedItems
        (updateMenuPrice "a" 999
          (handlePlaceOrder exampleCart "b1" "u1" OrderType.dine_in "" "" true true 1
            emptyDB).1) 1 =
      retrieveOrderedItems
        (handlePlaceOrder exampleCart "b1" "u1" OrderType.dine_in "" "" true true 1 emptyDB).1 1 := by
  have h := order_roundtrip_price_capture exampleCart "b1" "u1" OrderType.dine_in "" "" 1 emptyDB
    "a" 999 (by simp) (by simp [emptyDB])
  exact ⟨h.1, h.2.2⟩

end CityCrave
